import Mathlib

/-!
# Adaptive MCQ Quiz API — shallow embedding

Embedding of the session state machine, adaptive-difficulty policy and
lifecycle operations of the adaptive quiz service (agent.py, app.py,
db/crud.py, models.py).  External collaborators (the question LLM and the
feedback LLM) are modelled as explicit inputs to the operations: the
question source's output after JSON recovery is an `Option RawMCQ`
(`none` = no recoverable structured payload), the feedback source's
output is an `Option String` (`none` = the call raised).

Phase strings follow the source: `"generate_mcq"` is the spec's
`AwaitingQuestion`, `"process_answer"` is the spec's `AwaitingAnswer`.
-/

/-- In-memory projection of one quiz session (agent.py `QuizState`). -/
structure QuizState where
  course : String
  topic : String
  difficulty : Int
  current_mcq : String
  options : List (String × String)
  user_answer : String
  correct_answer : String
  explanation : String
  score : Int
  total_questions : Int
  feedback : String
  phase : String
  created_at : String
deriving DecidableEq, Repr

/-- Raw structured payload recovered from the question source's text,
before pydantic validation: each field may be missing. -/
structure RawMCQ where
  question : Option String
  optionA : Option String
  optionB : Option String
  optionC : Option String
  optionD : Option String
  correct_answer : Option String
  explanation : Option String
  difficulty : Option Int
deriving DecidableEq, Repr

/-- Validated MCQ payload (agent.py `MCQ` / `Options` pydantic models). -/
structure MCQ where
  question : String
  optionA : String
  optionB : String
  optionC : String
  optionD : String
  correct_answer : String
  explanation : String
  difficulty : Int
deriving DecidableEq, Repr

/-- Pydantic validation of `MCQ(**parsed_data)` (agent.py:42-52):
`question`, the four options, `correct_answer` and `explanation` are
required; `correct_answer` is `Literal["A","B","C","D"]`; `difficulty`
defaults to 2 and must satisfy `1 ≤ difficulty ≤ 5` (`ge=1, le=5`). -/
def MCQ.validate (r : RawMCQ) : Option MCQ :=
  match r.question, r.optionA, r.optionB, r.optionC, r.optionD,
        r.correct_answer, r.explanation with
  | some q, some a, some b, some c, some d, some ca, some ex =>
      let diff := r.difficulty.getD 2
      if (ca = "A" ∨ ca = "B" ∨ ca = "C" ∨ ca = "D") ∧ 1 ≤ diff ∧ diff ≤ 5 then
        some ⟨q, a, b, c, d, ca, ex, diff⟩
      else none
  | _, _, _, _, _, _, _ => none

/-- agent.py `generate_mcq_node`: on a validated payload, stores the
question (formatted with a trailing newline), options, answer key,
explanation, overwrites `difficulty` with the source's echo, and moves
the phase to `"process_answer"`.  A missing payload or failed
validation raises (modelled as `none`); the state is not touched. -/
def generate_mcq_node (state : QuizState) (llmParsed : Option RawMCQ) :
    Option QuizState :=
  match llmParsed with
  | none => none
  | some raw =>
    match MCQ.validate raw with
    | none => none
    | some mcq =>
      some { state with
        current_mcq := mcq.question ++ "\n",
        options := [("A", mcq.optionA), ("B", mcq.optionB),
                    ("C", mcq.optionC), ("D", mcq.optionD)],
        correct_answer := mcq.correct_answer,
        explanation := mcq.explanation,
        difficulty := mcq.difficulty,
        phase := "process_answer" }

/-- Python `str.strip` with no argument: drop whitespace from both
ends (structural definition so that proofs can evaluate it). -/
def pyStrip (s : String) : String :=
  String.mk
    ((((s.data.dropWhile Char.isWhitespace).reverse).dropWhile
      Char.isWhitespace).reverse)

/-- Python `str.upper` on ASCII label strings: uppercase every
character. -/
def pyUpper (s : String) : String :=
  String.mk (s.data.map Char.toUpper)

/-- agent.py `process_answer_node`: normalizes both labels with
`.strip().upper()`, computes the score/total/difficulty updates, then
calls the feedback source; the state assignments (agent.py:165-169)
happen only after the feedback call returned, so a feedback failure
(`none`) leaves the state untouched and raises. -/
def process_answer_node (state : QuizState) (feedbackResult : Option String) :
    Option QuizState :=
  let user_ans := pyUpper (pyStrip state.user_answer)
  let correct_ans := pyUpper (pyStrip state.correct_answer)
  let is_correct := user_ans == correct_ans
  let new_score := state.score + (if is_correct then 1 else 0)
  let new_total := state.total_questions + 1
  let new_difficulty :=
    if is_correct && decide (state.difficulty < 5) then
      min 5 (state.difficulty + 1)
    else if !is_correct && decide (state.difficulty > 1) then
      max 1 (state.difficulty - 1)
    else state.difficulty
  match feedbackResult with
  | none => none
  | some fb =>
    some { state with
      score := new_score,
      total_questions := new_total,
      difficulty := new_difficulty,
      phase := "generate_mcq",
      feedback := pyStrip fb }

/-- Durable row of the `quiz_sessions` table (db/models.py `QuizSession`). -/
structure QuizSessionRec where
  session_id : String
  student_id : String
  course : String
  topic : String
  difficulty : Int
  current_mcq : String
  options : List (String × String)
  user_answer : String
  correct_answer : String
  explanation : String
  score : Int
  total_questions : Int
  feedback : String
  phase : String
  created_at : String
deriving DecidableEq, Repr

/-- Durable row of the `quizzes` table (db/models.py `Quiz`), the
CompletedQuiz archival record. -/
structure QuizRec where
  session_id : String
  student_id : String
  course : String
  topic : String
  final_difficulty : Int
  score : Int
  total_questions : Int
deriving DecidableEq, Repr

/-- The session store: both tables, each keyed by `session_id`
(primary key). -/
structure DB where
  quizSessions : List QuizSessionRec
  quizzes : List QuizRec
deriving DecidableEq, Repr

/-- Replace the first element satisfying `p` by its image under `f`
(SQLAlchemy `.first()` followed by attribute mutation). -/
def updateFirst (p : α → Bool) (f : α → α) : List α → List α
  | [] => []
  | x :: xs => if p x then f x :: xs else x :: updateFirst p f xs

/-- Remove the first element satisfying `p` (SQLAlchemy `.first()`
followed by `db.delete`). -/
def eraseFirst (p : α → Bool) : List α → List α
  | [] => []
  | x :: xs => if p x then xs else x :: eraseFirst p xs

/-- crud.py `get_quiz_session_by_student_and_session`: first row whose
`student_id` and `session_id` both match.  A `None` student id matches
no row (SQL `student_id = NULL`). -/
def get_quiz_session_by_student_and_session (db : DB)
    (student_id : Option String) (session_id : String) :
    Option QuizSessionRec :=
  db.quizSessions.find? fun r =>
    (match student_id with
     | some s => r.student_id == s
     | none => false) && r.session_id == session_id

/-- crud.py `create_quiz_session`: inserts the row; a duplicate
`session_id` violates the primary key and raises (`none`). -/
def create_quiz_session (db : DB) (rec : QuizSessionRec) : Option DB :=
  if db.quizSessions.any fun r => r.session_id == rec.session_id then none
  else some { db with quizSessions := db.quizSessions ++ [rec] }

/-- crud.py `state_to_quiz_session_update`: the row receives every
mutable field of the state (identity, course, topic and `created_at`
are not part of `QuizSessionUpdate`). -/
def applyStateUpdate (st : QuizState) (r : QuizSessionRec) :
    QuizSessionRec :=
  { r with
    difficulty := st.difficulty,
    current_mcq := st.current_mcq,
    options := st.options,
    user_answer := st.user_answer,
    correct_answer := st.correct_answer,
    explanation := st.explanation,
    score := st.score,
    total_questions := st.total_questions,
    feedback := st.feedback,
    phase := st.phase }

/-- crud.py `update_quiz_session`: applies the update to the first row
with this `session_id` (a miss is a no-op returning `None`). -/
def update_quiz_session (db : DB) (session_id : String) (st : QuizState) :
    DB :=
  { db with
    quizSessions :=
      updateFirst (fun r => r.session_id == session_id)
        (applyStateUpdate st) db.quizSessions }

/-- crud.py `delete_quiz_session`: deletes the first row with this
`session_id` (a miss is a no-op returning `False`). -/
def delete_quiz_session (db : DB) (session_id : String) : DB :=
  { db with
    quizSessions :=
      eraseFirst (fun r => r.session_id == session_id) db.quizSessions }

/-- crud.py `create_quiz`: inserts the completed-quiz row; a duplicate
`session_id` violates the primary key and raises (`none`). -/
def create_quiz (db : DB) (q : QuizRec) : Option DB :=
  if db.quizzes.any fun r => r.session_id == q.session_id then none
  else some { db with quizzes := db.quizzes ++ [q] }

/-- crud.py `quiz_session_to_state`. -/
def quiz_session_to_state (r : QuizSessionRec) : QuizState :=
  { course := r.course,
    topic := r.topic,
    difficulty := r.difficulty,
    current_mcq := r.current_mcq,
    options := r.options,
    user_answer := r.user_answer,
    correct_answer := r.correct_answer,
    explanation := r.explanation,
    score := r.score,
    total_questions := r.total_questions,
    feedback := r.feedback,
    phase := r.phase,
    created_at := r.created_at }

/-- models.py `QuizStartRequest`. -/
structure QuizStartRequest where
  course : String
  topic : String
  user_id : Option String
  session_id : Option String
  initial_difficulty : Int
deriving DecidableEq, Repr

/-- Pydantic validation of `QuizStartRequest`: `initial_difficulty`
carries `ge=1, le=5` (models.py:18-20). -/
def QuizStartRequest.valid (r : QuizStartRequest) : Prop :=
  1 ≤ r.initial_difficulty ∧ r.initial_difficulty ≤ 5

/-- models.py `AnswerSubmitRequest` (`user_id` is read by
`submit_answer` in app.py and carried by the deployed request model). -/
structure AnswerSubmitRequest where
  user_id : String
  session_id : String
  answer : String
deriving DecidableEq, Repr

/-- The `Literal["A","B","C","D"]` membership check pydantic performs
on `AnswerSubmitRequest.answer` (exact, case-sensitive equality). -/
def answerLiteralOk (s : String) : Bool :=
  s == "A" || s == "B" || s == "C" || s == "D"

/-- The regex `^[A-Da-d]$` declared on the same field
(models.py:36-42): exactly one character, upper or lower case A-D. -/
def answerPatternOk (s : String) : Bool :=
  s.length == 1 &&
    s.toList.all fun c =>
      ('A' ≤ c && c ≤ 'D') || ('a' ≤ c && c ≤ 'd')

/-- Full pydantic validation of the submitted answer: the `Literal`
check is decisive; the declared pattern is redundant on the values the
`Literal` admits. -/
def AnswerSubmitRequest.validAnswer (r : AnswerSubmitRequest) : Bool :=
  answerLiteralOk r.answer && answerPatternOk r.answer

/-- HTTP-level failures raised by the endpoints. -/
inductive ApiError where
  | badRequest (detail : String)
  | notFound (detail : String)
  | unprocessable (detail : String)
  | serverError (detail : String)
deriving DecidableEq, Repr

/-- models.py `QuizStartResponse`. -/
structure QuizStartResponse where
  session_id : String
  course : String
  topic : String
  difficulty : Int
  question : String
  options : List (String × String)
  question_number : Int
  message : String
deriving DecidableEq, Repr

/-- models.py `AnswerSubmitResponse`. -/
structure AnswerSubmitResponse where
  session_id : String
  is_correct : Bool
  feedback : String
  score : Int
  total_questions : Int
  new_difficulty : Int
deriving DecidableEq, Repr

/-- models.py `QuizStatusResponse`. -/
structure QuizStatusResponse where
  session_id : String
  course : String
  topic : String
  score : Int
  total_questions : Int
  difficulty : Int
  current_phase : String
  created_at : String
deriving DecidableEq, Repr

/-- The `final_results` dictionary returned by `end_quiz`
(app.py:310-318); `accuracy` is exact rational arithmetic standing for
the float expression. -/
structure FinalScore where
  session_id : String
  score : Int
  total_questions : Int
  accuracy : ℚ
  final_difficulty : Int
deriving DecidableEq, Repr

/-- Round to the nearest integer, ties to even (Python `round`). -/
def roundHalfEven (x : ℚ) : ℤ :=
  let f := Int.floor x
  let r := x - (f : ℚ)
  if r < 1 / 2 then f
  else if 1 / 2 < r then f + 1
  else if f % 2 = 0 then f else f + 1

/-- Python `round(x, 2)`: round to two decimal places, ties to even. -/
def pyRound2 (x : ℚ) : ℚ :=
  (roundHalfEven (x * 100) : ℚ) / 100

/-- The fresh in-memory state built by `start_quiz` when no stored
record is resumed (app.py:118-134): counters at zero, placeholder
answer labels `"A"`, phase `"generate_mcq"`. -/
def newQuizState (req : QuizStartRequest) (now : String) : QuizState :=
  { course := req.course,
    topic := req.topic,
    difficulty := req.initial_difficulty,
    current_mcq := "",
    options := [],
    user_answer := "A",
    correct_answer := "A",
    explanation := "",
    score := 0,
    total_questions := 0,
    feedback := "",
    phase := "generate_mcq",
    created_at := now }

/-- schemas.py `QuizSessionCreate` applied to a state
(`session_id=..., student_id=..., **result`). -/
def stateToRec (session_id student_id : String) (st : QuizState) :
    QuizSessionRec :=
  { session_id := session_id,
    student_id := student_id,
    course := st.course,
    topic := st.topic,
    difficulty := st.difficulty,
    current_mcq := st.current_mcq,
    options := st.options,
    user_answer := st.user_answer,
    correct_answer := st.correct_answer,
    explanation := st.explanation,
    score := st.score,
    total_questions := st.total_questions,
    feedback := st.feedback,
    phase := st.phase,
    created_at := st.created_at }

/-- The `QuizStartResponse` assembled at app.py:180-189. -/
def quizStartResponseOf (session_id : String) (result : QuizState) :
    QuizStartResponse :=
  { session_id := session_id,
    course := result.course,
    topic := result.topic,
    difficulty := result.difficulty,
    question := result.current_mcq,
    options := result.options,
    question_number := result.total_questions + 1,
    message := "Quiz session started successfully" }

/-- The create-new-session block of `start_quiz` (app.py:113-145 and
its duplicate at 146-178): build a fresh state, run
`generate_mcq_node`, insert the row.  A `None` `user_id` fails
`QuizSessionCreate`'s `student_id: str` validation inside the `try`
and surfaces as the generic 500. -/
def start_quiz_create (db : DB) (req : QuizStartRequest)
    (session_id now : String) (llmParsed : Option RawMCQ) :
    DB × Except ApiError QuizStartResponse :=
  let initial_state := newQuizState req now
  match generate_mcq_node initial_state llmParsed with
  | none => (db, .error (.serverError "Failed to start quiz session"))
  | some result =>
    match req.user_id with
    | none => (db, .error (.serverError "Failed to start quiz session"))
    | some uid =>
      match create_quiz_session db (stateToRec session_id uid result) with
      | none => (db, .error (.serverError "Failed to start quiz session"))
      | some dbNew => (dbNew, .ok (quizStartResponseOf session_id result))

/-- app.py `start_quiz` (StartOrResume).  `freshId` is the
`uuid.uuid4()` draw, `now` the `datetime.now().isoformat()` stamp,
`llmParsed` the question source's recovered payload. -/
def start_quiz (db : DB) (req : QuizStartRequest) (freshId now : String)
    (llmParsed : Option RawMCQ) :
    DB × Except ApiError QuizStartResponse :=
  match req.session_id with
  | some sid =>
    match get_quiz_session_by_student_and_session db req.user_id sid with
    | some db_session =>
      let initial_state := quiz_session_to_state db_session
      if initial_state.phase ≠ "generate_mcq" then
        (db, .error (.badRequest "Already an active question in queue"))
      else
        match generate_mcq_node initial_state llmParsed with
        | none => (db, .error (.serverError "Failed to start quiz session"))
        | some result =>
          (update_quiz_session db sid result,
           .ok (quizStartResponseOf sid result))
    | none => start_quiz_create db req freshId now llmParsed
  | none => start_quiz_create db req freshId now llmParsed

/-- app.py `submit_answer` (SubmitAnswer), after request validation:
load the row by `(user_id, session_id)`, check the phase, write the
submitted answer into the state, run `process_answer_node`, recompute
`is_correct` in the endpoint, persist. -/
def submit_answer (db : DB) (req : AnswerSubmitRequest)
    (feedbackResult : Option String) :
    DB × Except ApiError AnswerSubmitResponse :=
  match get_quiz_session_by_student_and_session db (some req.user_id)
      req.session_id with
  | none => (db, .error (.notFound "Quiz session not found or expired"))
  | some db_session =>
    let current_state := quiz_session_to_state db_session
    if current_state.phase ≠ "process_answer" then
      (db, .error (.badRequest "No active question to answer"))
    else
      let current_state := { current_state with user_answer := req.answer }
      match process_answer_node current_state feedbackResult with
      | none => (db, .error (.serverError "Failed to process answer"))
      | some feedback_result =>
        let is_correct :=
          pyUpper req.answer == pyUpper feedback_result.correct_answer
        (update_quiz_session db req.session_id feedback_result,
         .ok { session_id := req.session_id,
               is_correct := is_correct,
               feedback := feedback_result.feedback,
               score := feedback_result.score,
               total_questions := feedback_result.total_questions,
               new_difficulty := feedback_result.difficulty })

/-- The full `/api/quiz/answer` path: pydantic validates the request
body before the endpoint body runs; an invalid `answer` never reaches
the state machine (FastAPI responds 422). -/
def submit_answer_validated (db : DB) (req : AnswerSubmitRequest)
    (feedbackResult : Option String) :
    DB × Except ApiError AnswerSubmitResponse :=
  if req.validAnswer then submit_answer db req feedbackResult
  else (db, .error (.unprocessable "request validation failed"))

/-- app.py `get_quiz_status` (GetStatus): read-only projection. -/
def get_quiz_status (db : DB) (user_id session_id : String) :
    Except ApiError QuizStatusResponse :=
  match get_quiz_session_by_student_and_session db (some user_id)
      session_id with
  | none => .error (.notFound "Quiz session not found or expired")
  | some db_session =>
    let state := quiz_session_to_state db_session
    .ok { session_id := session_id,
          course := state.course,
          topic := state.topic,
          score := state.score,
          total_questions := state.total_questions,
          difficulty := state.difficulty,
          current_phase := state.phase,
          created_at := state.created_at }

/-- app.py `end_quiz` (End): load the row, compute the summary
(guarding the division by `total_questions > 0`), archive a
CompletedQuiz row, delete the live row, return the summary.  A
primary-key clash in `create_quiz` raises out of the handler before
the deletion (there is no `try` here). -/
def end_quiz (db : DB) (user_id session_id : String) :
    DB × Except ApiError FinalScore :=
  match get_quiz_session_by_student_and_session db (some user_id)
      session_id with
  | none => (db, .error (.notFound "Quiz session not found"))
  | some db_session =>
    let state := quiz_session_to_state db_session
    let final_score : FinalScore :=
      { session_id := session_id,
        score := state.score,
        total_questions := state.total_questions,
        accuracy :=
          if state.total_questions > 0 then
            pyRound2 ((state.score : ℚ) / (state.total_questions : ℚ) * 100)
          else 0,
        final_difficulty := state.difficulty }
    match create_quiz db
        { session_id := session_id,
          student_id := user_id,
          course := state.course,
          topic := state.topic,
          final_difficulty := state.difficulty,
          score := state.score,
          total_questions := state.total_questions } with
    | none => (db, .error (.serverError "Internal Server Error"))
    | some db1 => (delete_quiz_session db1 session_id, .ok final_score)

/-- The session stores reachable through the public operations,
starting from an empty store.  Failed operations return the store
unchanged, so including every outcome is sound. -/
inductive Reachable : DB → Prop where
  | init : Reachable ⟨[], []⟩
  | start (db : DB) (req : QuizStartRequest) (freshId now : String)
      (llmParsed : Option RawMCQ) (out : DB × Except ApiError QuizStartResponse) :
      Reachable db → req.valid →
      start_quiz db req freshId now llmParsed = out → Reachable out.1
  | submit (db : DB) (req : AnswerSubmitRequest) (fb : Option String)
      (out : DB × Except ApiError AnswerSubmitResponse) :
      Reachable db → submit_answer_validated db req fb = out →
      Reachable out.1
  | endq (db : DB) (user_id session_id : String)
      (out : DB × Except ApiError FinalScore) :
      Reachable db → end_quiz db user_id session_id = out →
      Reachable out.1

/-- A question-source outcome that cannot produce a valid MCQ: either
no structured payload was recovered, or pydantic validation of the
recovered payload fails. -/
def generationFails (llm : Option RawMCQ) : Prop :=
  match llm with
  | none => True
  | some raw => MCQ.validate raw = none

/-! ## Concrete fixtures used by witnesses and counterexamples -/

def wRaw : RawMCQ :=
  ⟨some "Q?", some "o1", some "o2", some "o3", some "o4", some "B",
   some "because", some 3⟩

def wReq : QuizStartRequest := ⟨"Biology", "Genetics", some "u1", none, 2⟩

def wDB1 : DB := (start_quiz ⟨[], []⟩ wReq "s1" "t0" (some wRaw)).1

def wRec : QuizSessionRec :=
  ⟨"s1", "u1", "Biology", "Genetics", 3, "Q?\n",
   [("A", "o1"), ("B", "o2"), ("C", "o3"), ("D", "o4")], "A", "B",
   "because", 0, 0, "", "process_answer", "t0"⟩

def wSubReq : AnswerSubmitRequest := ⟨"u1", "s1", "B"⟩

def wResp : AnswerSubmitResponse := ⟨"s1", true, "nice", 1, 1, 4⟩

def c2state : QuizState :=
  ⟨"c", "t", 3, "q", [], "b", "B", "e", 0, 0, "", "process_answer", "t0"⟩

def c2res : QuizState :=
  ⟨"c", "t", 4, "q", [], "b", "B", "e", 1, 1, "fb", "generate_mcq", "t0"⟩

def c3recA : QuizSessionRec :=
  ⟨"sA", "u1", "c", "t", 3, "q", [("A", "o1")], "A", "B", "e", 0, 0, "",
   "process_answer", "t0"⟩

def c3recB : QuizSessionRec :=
  ⟨"sB", "u1", "c", "t", 3, "", [], "A", "A", "", 0, 0, "",
   "generate_mcq", "t0"⟩

def c3db : DB := ⟨[c3recA, c3recB], []⟩

def c3startReq : QuizStartRequest := ⟨"c", "t", some "u1", some "sA", 2⟩

def c3subReq : AnswerSubmitRequest := ⟨"u1", "sB", "A"⟩

def c4rec : QuizSessionRec :=
  ⟨"s1", "u1", "c", "t", 3, "q", [], "A", "B", "e", 0, 0, "",
   "process_answer", "t0"⟩

def c4db : DB := ⟨[c4rec], []⟩

def c4req : AnswerSubmitRequest := ⟨"u1", "s1", "B"⟩

def c5raw : RawMCQ :=
  ⟨some "q", some "a", some "b", some "c", some "d", some "B", some "e",
   some 6⟩

def c5rec : QuizSessionRec :=
  ⟨"s5", "u5", "c", "t", 2, "", [], "A", "A", "", 0, 0, "",
   "generate_mcq", "t0"⟩

def c5db : DB := ⟨[c5rec], []⟩

def c5req : QuizStartRequest := ⟨"c", "t", some "u5", some "s5", 2⟩

def c6state : QuizState :=
  ⟨"c", "t", 3, "q", [], "b", "B", "e", 0, 0, "", "process_answer", "t0"⟩

def c6req : AnswerSubmitRequest := ⟨"u1", "s1", "b"⟩

def c7rec : QuizSessionRec :=
  ⟨"s7", "u7", "c", "t", 4, "q", [], "A", "B", "e", 3, 5, "",
   "process_answer", "t0"⟩

def c7db : DB := ⟨[c7rec], []⟩

def c8req : QuizStartRequest := ⟨"Bio", "Gen", some "u1", some "s1", 2⟩

def c8result : QuizState :=
  ⟨"Bio", "Gen", 3, "Q?\n",
   [("A", "o1"), ("B", "o2"), ("C", "o3"), ("D", "o4")], "A", "B",
   "because", 0, 0, "", "process_answer", "t0"⟩

def c9rec : QuizSessionRec :=
  ⟨"s9", "u9", "c", "t", 4, "q", [], "A", "B", "e", 3, 5, "",
   "process_answer", "t0"⟩

def c9db : DB := ⟨[c9rec], []⟩

def c9zrec : QuizSessionRec :=
  ⟨"sz", "uz", "c", "t", 2, "", [], "A", "A", "", 0, 0, "",
   "generate_mcq", "t0"⟩

def c9zdb : DB := ⟨[c9zrec], []⟩

/-! ## Helper lemmas about the list primitives -/

theorem mem_updateFirst {α : Type} {p : α → Bool} {f : α → α} {l : List α}
    {x : α} (h : x ∈ updateFirst p f l) :
    x ∈ l ∨ ∃ y, y ∈ l ∧ p y = true ∧ x = f y := by
  induction l with
  | nil => simp [updateFirst] at h
  | cons a as ih =>
    rw [updateFirst] at h
    by_cases hp : p a
    · rw [if_pos hp] at h
      rcases List.mem_cons.mp h with h1 | h1
      · exact Or.inr ⟨a, List.mem_cons_self a as, hp, h1⟩
      · exact Or.inl (List.mem_cons_of_mem _ h1)
    · rw [if_neg hp] at h
      rcases List.mem_cons.mp h with h1 | h1
      · exact Or.inl (h1 ▸ List.mem_cons_self a as)
      · rcases ih h1 with h2 | ⟨y, hy, hpy, hxy⟩
        · exact Or.inl (List.mem_cons_of_mem _ h2)
        · exact Or.inr ⟨y, List.mem_cons_of_mem _ hy, hpy, hxy⟩

theorem pairwise_key_updateFirst {p : QuizSessionRec → Bool}
    {f : QuizSessionRec → QuizSessionRec}
    (hkey : ∀ a, (f a).session_id = a.session_id)
    {l : List QuizSessionRec}
    (h : l.Pairwise fun a b => a.session_id ≠ b.session_id) :
    (updateFirst p f l).Pairwise fun a b => a.session_id ≠ b.session_id := by
  induction l with
  | nil => simp [updateFirst]
  | cons a as ih =>
    rcases List.pairwise_cons.mp h with ⟨h1, h2⟩
    rw [updateFirst]
    by_cases hp : p a
    · rw [if_pos hp]
      refine List.pairwise_cons.mpr ⟨fun y hy => ?_, h2⟩
      rw [hkey]
      exact h1 y hy
    · rw [if_neg hp]
      refine List.pairwise_cons.mpr ⟨fun y hy => ?_, ih h2⟩
      rcases mem_updateFirst hy with h3 | ⟨z, hz, _, rfl⟩
      · exact h1 y h3
      · rw [hkey]
        exact h1 z hz

theorem eraseFirst_sublist {α : Type} (p : α → Bool) (l : List α) :
    List.Sublist (eraseFirst p l) l := by
  induction l with
  | nil => simp [eraseFirst]
  | cons a as ih =>
    rw [eraseFirst]
    by_cases hp : p a
    · rw [if_pos hp]
      exact List.sublist_cons_self a as
    · rw [if_neg hp]
      exact List.Sublist.cons₂ a ih

theorem eraseFirst_no_key {l : List QuizSessionRec} {sid : String}
    (hpw : l.Pairwise fun a b => a.session_id ≠ b.session_id)
    {y : QuizSessionRec} (hy : y ∈ l) (hk : y.session_id = sid) :
    ∀ x ∈ eraseFirst (fun r => r.session_id == sid) l,
      x.session_id ≠ sid := by
  induction l with
  | nil => simp at hy
  | cons a as ih =>
    rcases List.pairwise_cons.mp hpw with ⟨h1, h2⟩
    intro x hx
    rw [eraseFirst] at hx
    by_cases hp : a.session_id == sid
    · rw [if_pos hp] at hx
      have ha : a.session_id = sid := by simpa using hp
      intro hxs
      exact (h1 x hx) (ha.trans hxs.symm)
    · rw [if_neg hp] at hx
      have hyas : y ∈ as := by
        rcases List.mem_cons.mp hy with h3 | h3
        · exact absurd (by simp [← h3, hk]) hp
        · exact h3
      rcases List.mem_cons.mp hx with h3 | h3
      · subst h3
        simpa using hp
      · exact ih h2 hyas x h3

/-! ## Facts about the state-machine nodes -/

theorem MCQ.validate_some {raw : RawMCQ} {m : MCQ}
    (h : MCQ.validate raw = some m) :
    (m.correct_answer = "A" ∨ m.correct_answer = "B" ∨
      m.correct_answer = "C" ∨ m.correct_answer = "D") ∧
      1 ≤ m.difficulty ∧ m.difficulty ≤ 5 := by
  unfold MCQ.validate at h
  split at h
  · dsimp only at h
    split at h
    · rename_i hcond
      cases h
      exact ⟨hcond.1, hcond.2⟩
    · exact absurd h (by simp)
  · exact absurd h (by simp)

theorem generate_mcq_node_some {s : QuizState} {llm : Option RawMCQ}
    {s' : QuizState} (h : generate_mcq_node s llm = some s') :
    s'.score = s.score ∧ s'.total_questions = s.total_questions ∧
      (s'.correct_answer = "A" ∨ s'.correct_answer = "B" ∨
        s'.correct_answer = "C" ∨ s'.correct_answer = "D") ∧
      1 ≤ s'.difficulty ∧ s'.difficulty ≤ 5 ∧
      s'.phase = "process_answer" := by
  cases llm with
  | none => simp [generate_mcq_node] at h
  | some raw =>
    cases hv : MCQ.validate raw with
    | none => simp [generate_mcq_node, hv] at h
    | some mcq =>
      simp only [generate_mcq_node, hv, Option.some.injEq] at h
      subst h
      rcases MCQ.validate_some hv with ⟨hca, hd1, hd2⟩
      exact ⟨rfl, rfl, hca, hd1, hd2, rfl⟩

theorem process_answer_node_eq (s : QuizState) (fb : String) :
    process_answer_node s (some fb) =
      some { s with
        score := s.score +
          (if pyUpper (pyStrip s.user_answer) ==
              pyUpper (pyStrip s.correct_answer)
           then 1 else 0),
        total_questions := s.total_questions + 1,
        difficulty :=
          (if (pyUpper (pyStrip s.user_answer) ==
                pyUpper (pyStrip s.correct_answer))
              && decide (s.difficulty < 5) then
            min 5 (s.difficulty + 1)
          else if (!(pyUpper (pyStrip s.user_answer) ==
                pyUpper (pyStrip s.correct_answer)))
              && decide (s.difficulty > 1) then
            max 1 (s.difficulty - 1)
          else s.difficulty),
        phase := "generate_mcq",
        feedback := pyStrip fb } := rfl

theorem process_answer_node_none (s : QuizState) :
    process_answer_node s none = none := rfl

/-! ## The per-record invariant and its preservation -/

/-- The state of one stored session record satisfies the spec's
session invariants: score within `[0, total_questions]`, difficulty
within `[1,5]`, the answer key one of the four labels, the phase one
of the two observable phases. -/
def recInvariant (r : QuizSessionRec) : Prop :=
  0 ≤ r.score ∧ r.score ≤ r.total_questions ∧
    1 ≤ r.difficulty ∧ r.difficulty ≤ 5 ∧
    (r.correct_answer = "A" ∨ r.correct_answer = "B" ∨
      r.correct_answer = "C" ∨ r.correct_answer = "D") ∧
    (r.phase = "generate_mcq" ∨ r.phase = "process_answer")

/-- Store-wide invariant: every live record satisfies `recInvariant`
and `session_id` is a primary key (no two rows share it). -/
def dbInvariant (db : DB) : Prop :=
  (∀ r ∈ db.quizSessions, recInvariant r) ∧
    db.quizSessions.Pairwise fun a b => a.session_id ≠ b.session_id

/-! ## Unfolding lemmas for the endpoint operations -/

theorem start_quiz_resume_eq (db : DB) (req : QuizStartRequest)
    (freshId now : String) (llm : Option RawMCQ) (sid : String)
    (dbs : QuizSessionRec) (hs : req.session_id = some sid)
    (hf : get_quiz_session_by_student_and_session db req.user_id sid =
      some dbs) :
    start_quiz db req freshId now llm =
      (if (quiz_session_to_state dbs).phase ≠ "generate_mcq" then
        (db, .error (.badRequest "Already an active question in queue"))
      else
        match generate_mcq_node (quiz_session_to_state dbs) llm with
        | none => (db, .error (.serverError "Failed to start quiz session"))
        | some result =>
          (update_quiz_session db sid result,
           .ok (quizStartResponseOf sid result))) := by
  simp only [start_quiz, hs, hf]

theorem start_quiz_fresh_eq (db : DB) (req : QuizStartRequest)
    (freshId now : String) (llm : Option RawMCQ)
    (hmiss : ∀ sid, req.session_id = some sid →
      get_quiz_session_by_student_and_session db req.user_id sid = none) :
    start_quiz db req freshId now llm =
      start_quiz_create db req freshId now llm := by
  unfold start_quiz
  cases hs : req.session_id with
  | none => rfl
  | some sid => simp only [hmiss sid hs]

theorem submit_answer_eq (db : DB) (req : AnswerSubmitRequest)
    (fb : Option String) (dbs : QuizSessionRec)
    (hf : get_quiz_session_by_student_and_session db (some req.user_id)
      req.session_id = some dbs) :
    submit_answer db req fb =
      (if (quiz_session_to_state dbs).phase ≠ "process_answer" then
        (db, .error (.badRequest "No active question to answer"))
      else
        match process_answer_node
            { quiz_session_to_state dbs with user_answer := req.answer } fb with
        | none => (db, .error (.serverError "Failed to process answer"))
        | some feedback_result =>
          (update_quiz_session db req.session_id feedback_result,
           .ok { session_id := req.session_id,
                 is_correct := pyUpper req.answer ==
                   pyUpper feedback_result.correct_answer,
                 feedback := feedback_result.feedback,
                 score := feedback_result.score,
                 total_questions := feedback_result.total_questions,
                 new_difficulty := feedback_result.difficulty })) := by
  simp only [submit_answer, hf]

theorem end_quiz_eq (db : DB) (user_id session_id : String)
    (dbs : QuizSessionRec)
    (hf : get_quiz_session_by_student_and_session db (some user_id)
      session_id = some dbs) :
    end_quiz db user_id session_id =
      (match create_quiz db
          { session_id := session_id,
            student_id := user_id,
            course := dbs.course,
            topic := dbs.topic,
            final_difficulty := dbs.difficulty,
            score := dbs.score,
            total_questions := dbs.total_questions } with
      | none => (db, .error (.serverError "Internal Server Error"))
      | some db1 =>
        (delete_quiz_session db1 session_id,
         .ok { session_id := session_id,
               score := dbs.score,
               total_questions := dbs.total_questions,
               accuracy :=
                 if dbs.total_questions > 0 then
                   pyRound2 ((dbs.score : ℚ) / (dbs.total_questions : ℚ) * 100)
                 else 0,
               final_difficulty := dbs.difficulty })) := by
  simp only [end_quiz, hf, quiz_session_to_state]

/-! ## Invariant preservation -/

theorem dbInvariant_update_generate {db : DB} {sid : String}
    {dbs : QuizSessionRec} {llm : Option RawMCQ} {result : QuizState}
    (hinv : dbInvariant db) (hdbs : dbs ∈ db.quizSessions)
    (hg : generate_mcq_node (quiz_session_to_state dbs) llm = some result) :
    dbInvariant (update_quiz_session db sid result) := by
  rcases generate_mcq_node_some hg with ⟨hsc, ht, hca, hd1, hd2, hp⟩
  simp only [quiz_session_to_state] at hsc ht
  have hrec := hinv.1 dbs hdbs
  constructor
  · intro r hr
    simp only [update_quiz_session] at hr
    rcases mem_updateFirst hr with h1 | ⟨y, hy, _, rfl⟩
    · exact hinv.1 r h1
    · refine ⟨?_, ?_, ?_, ?_, ?_, ?_⟩ <;>
        simp only [applyStateUpdate, hsc, ht, hp]
      · exact hrec.1
      · exact hrec.2.1
      · exact hd1
      · exact hd2
      · exact hca
      · exact Or.inr trivial
  · simp only [update_quiz_session]
    exact pairwise_key_updateFirst
      (p := fun r => r.session_id == sid)
      (f := applyStateUpdate result) (fun a => rfl) hinv.2

theorem dbInvariant_update_process {db : DB} {sid : String}
    {dbs : QuizSessionRec} {ans fb : String} {result : QuizState}
    (hinv : dbInvariant db) (hdbs : dbs ∈ db.quizSessions)
    (hg : process_answer_node
      { quiz_session_to_state dbs with user_answer := ans } (some fb) =
      some result) :
    dbInvariant (update_quiz_session db sid result) := by
  rw [process_answer_node_eq] at hg
  rw [Option.some.injEq] at hg
  have hrec := hinv.1 dbs hdbs
  rcases hrec with ⟨hs0, hst, hdl, hdu, hca, _⟩
  constructor
  · intro r hr
    simp only [update_quiz_session] at hr
    rcases mem_updateFirst hr with h1 | ⟨y, hy, _, rfl⟩
    · exact hinv.1 r h1
    · subst hg
      simp only [applyStateUpdate, recInvariant, quiz_session_to_state]
      refine ⟨?_, ?_, ?_, ?_, ?_, ?_⟩
      · split <;> omega
      · split <;> omega
      · split
        · simp only [min_def]
          split <;> omega
        · split
          · simp only [max_def]
            split <;> omega
          · omega
      · split
        · simp only [min_def]
          split <;> omega
        · split
          · simp only [max_def]
            split <;> omega
          · omega
      · exact hca
      · exact Or.inl trivial
  · simp only [update_quiz_session]
    exact pairwise_key_updateFirst
      (p := fun r => r.session_id == sid)
      (f := applyStateUpdate result) (fun a => rfl) hinv.2

theorem dbInvariant_append {db : DB} {rec : QuizSessionRec}
    (hinv : dbInvariant db) (hrec : recInvariant rec)
    (hfresh : (db.quizSessions.any fun r =>
      r.session_id == rec.session_id) = false) :
    dbInvariant { db with quizSessions := db.quizSessions ++ [rec] } := by
  constructor
  · intro r hr
    simp only [List.mem_append, List.mem_singleton] at hr
    rcases hr with h1 | rfl
    · exact hinv.1 r h1
    · exact hrec
  · rw [List.pairwise_append]
    refine ⟨hinv.2, List.pairwise_singleton _ _, ?_⟩
    intro a ha b hb
    simp only [List.mem_singleton] at hb
    subst hb
    have hall := List.any_eq_false.mp hfresh a ha
    simp only [beq_iff_eq] at hall
    exact hall

theorem dbInvariant_delete {db : DB} {sid : String}
    (hinv : dbInvariant db) : dbInvariant (delete_quiz_session db sid) := by
  constructor
  · intro r hr
    simp only [delete_quiz_session] at hr
    exact hinv.1 r ((eraseFirst_sublist _ _).subset hr)
  · simp only [delete_quiz_session]
    exact hinv.2.sublist (eraseFirst_sublist _ _)

theorem start_quiz_create_dbInvariant {db : DB} {req : QuizStartRequest}
    {sid now : String} {llm : Option RawMCQ}
    {out : DB × Except ApiError QuizStartResponse}
    (h : start_quiz_create db req sid now llm = out)
    (hinv : dbInvariant db) : dbInvariant out.1 := by
  simp only [start_quiz_create] at h
  cases hg : generate_mcq_node (newQuizState req now) llm with
  | none => rw [hg] at h; subst h; exact hinv
  | some result =>
    simp only [hg] at h
    cases hu : req.user_id with
    | none => simp only [hu] at h; subst h; exact hinv
    | some uid =>
      simp only [hu] at h
      cases hc : create_quiz_session db (stateToRec sid uid result) with
      | none => simp only [hc] at h; subst h; exact hinv
      | some dbNew =>
        simp only [hc] at h
        subst h
        unfold create_quiz_session at hc
        split at hc
        · exact absurd hc (by simp)
        · rename_i hany
          rw [Option.some.injEq] at hc
          subst hc
          rcases generate_mcq_node_some hg with ⟨hsc, ht, hca, hd1, hd2, hp⟩
          simp only [newQuizState] at hsc ht
          refine dbInvariant_append hinv ?_ (by simpa using hany)
          refine ⟨?_, ?_, ?_, ?_, ?_, ?_⟩ <;>
            simp only [stateToRec, hsc, ht, hp]
          · omega
          · omega
          · exact hd1
          · exact hd2
          · exact hca
          · exact Or.inr trivial

theorem start_quiz_dbInvariant {db : DB} {req : QuizStartRequest}
    {fid now : String} {llm : Option RawMCQ}
    {out : DB × Except ApiError QuizStartResponse}
    (h : start_quiz db req fid now llm = out) (hinv : dbInvariant db) :
    dbInvariant out.1 := by
  rcases hso : req.session_id with _ | sid
  · rw [start_quiz_fresh_eq db req fid now llm (by simp [hso])] at h
    exact start_quiz_create_dbInvariant h hinv
  · cases hf : get_quiz_session_by_student_and_session db req.user_id sid with
    | none =>
      rw [start_quiz_fresh_eq db req fid now llm ?_] at h
      · exact start_quiz_create_dbInvariant h hinv
      · intro sid' hs'
        rw [hso, Option.some.injEq] at hs'
        subst hs'
        exact hf
    | some dbs =>
      rw [start_quiz_resume_eq db req fid now llm sid dbs hso hf] at h
      by_cases hp : (quiz_session_to_state dbs).phase ≠ "generate_mcq"
      · rw [if_pos hp] at h
        subst h
        exact hinv
      · rw [if_neg hp] at h
        cases hg : generate_mcq_node (quiz_session_to_state dbs) llm with
        | none => rw [hg] at h; subst h; exact hinv
        | some result =>
          rw [hg] at h
          subst h
          exact dbInvariant_update_generate hinv
            (List.mem_of_find?_eq_some hf) hg

theorem submit_answer_dbInvariant {db : DB} {req : AnswerSubmitRequest}
    {fb : Option String} {out : DB × Except ApiError AnswerSubmitResponse}
    (h : submit_answer db req fb = out) (hinv : dbInvariant db) :
    dbInvariant out.1 := by
  cases hf : get_quiz_session_by_student_and_session db (some req.user_id)
      req.session_id with
  | none =>
    unfold submit_answer at h
    rw [hf] at h
    subst h
    exact hinv
  | some dbs =>
    rw [submit_answer_eq db req fb dbs hf] at h
    by_cases hp : (quiz_session_to_state dbs).phase ≠ "process_answer"
    · rw [if_pos hp] at h
      subst h
      exact hinv
    · rw [if_neg hp] at h
      cases fb with
      | none =>
        rw [process_answer_node_none] at h
        subst h
        exact hinv
      | some fbs =>
        cases hg : process_answer_node
            { quiz_session_to_state dbs with user_answer := req.answer }
            (some fbs) with
        | none => rw [hg] at h; subst h; exact hinv
        | some result =>
          rw [hg] at h
          subst h
          exact dbInvariant_update_process hinv
            (List.mem_of_find?_eq_some hf) hg

theorem submit_answer_validated_dbInvariant {db : DB}
    {req : AnswerSubmitRequest} {fb : Option String}
    {out : DB × Except ApiError AnswerSubmitResponse}
    (h : submit_answer_validated db req fb = out) (hinv : dbInvariant db) :
    dbInvariant out.1 := by
  unfold submit_answer_validated at h
  split at h
  · exact submit_answer_dbInvariant h hinv
  · subst h
    exact hinv

theorem end_quiz_dbInvariant {db : DB} {uid sid : String}
    {out : DB × Except ApiError FinalScore}
    (h : end_quiz db uid sid = out) (hinv : dbInvariant db) :
    dbInvariant out.1 := by
  cases hf : get_quiz_session_by_student_and_session db (some uid) sid with
  | none =>
    unfold end_quiz at h
    rw [hf] at h
    subst h
    exact hinv
  | some dbs =>
    rw [end_quiz_eq db uid sid dbs hf] at h
    cases hc : create_quiz db
        { session_id := sid,
          student_id := uid,
          course := dbs.course,
          topic := dbs.topic,
          final_difficulty := dbs.difficulty,
          score := dbs.score,
          total_questions := dbs.total_questions } with
    | none => rw [hc] at h; subst h; exact hinv
    | some db1 =>
      rw [hc] at h
      subst h
      have hdb1 : db1.quizSessions = db.quizSessions := by
        unfold create_quiz at hc
        split at hc
        · exact absurd hc (by simp)
        · rw [Option.some.injEq] at hc
          subst hc
          rfl
      refine dbInvariant_delete ⟨?_, ?_⟩
      · intro r hr
        rw [hdb1] at hr
        exact hinv.1 r hr
      · rw [hdb1]
        exact hinv.2

theorem reachable_dbInvariant {db : DB} (h : Reachable db) :
    dbInvariant db := by
  induction h with
  | init =>
    refine ⟨?_, List.Pairwise.nil⟩
    intro r hr
    simp at hr
  | start db req fid now llm out hr hv hstep ih =>
    exact start_quiz_dbInvariant hstep ih
  | submit db req fb out hr hstep ih =>
    exact submit_answer_validated_dbInvariant hstep ih
  | endq db uid sid out hr hstep ih =>
    exact end_quiz_dbInvariant hstep ih

/-! ## Claims -/

theorem wDB1_reachable : Reachable wDB1 :=
  Reachable.start ⟨[], []⟩ wReq "s1" "t0" (some wRaw)
    (start_quiz ⟨[], []⟩ wReq "s1" "t0" (some wRaw))
    Reachable.init (by constructor <;> decide) rfl

/-- C1: in every session store reachable through the public operations
(StartOrResume, SubmitAnswer, GetStatus, End) from the empty store,
every live session record satisfies `0 ≤ score ≤ total_questions` and
`1 ≤ difficulty ≤ 5` at every observable point. -/
theorem C1_session_invariant (db : DB) (h : Reachable db) :
    ∀ r ∈ db.quizSessions,
      0 ≤ r.score ∧ r.score ≤ r.total_questions ∧
      1 ≤ r.difficulty ∧ r.difficulty ≤ 5 := by
  intro r hr
  rcases (reachable_dbInvariant h).1 r hr with ⟨h1, h2, h3, h4, -, -⟩
  exact ⟨h1, h2, h3, h4⟩

theorem C1_session_invariant_witness :
    Reachable wDB1 ∧
    ∀ r ∈ wDB1.quizSessions,
      0 ≤ r.score ∧ r.score ≤ r.total_questions ∧
      1 ≤ r.difficulty ∧ r.difficulty ≤ 5 :=
  ⟨wDB1_reachable, C1_session_invariant wDB1 wDB1_reachable⟩

/-- C2: a SubmitAnswer transition executed in phase AwaitingAnswer
(`"process_answer"`) whose feedback call succeeds increments the score
by exactly 1 iff the normalized submitted label equals the normalized
stored label (unchanged otherwise), increments total_questions by
exactly 1 unconditionally, and moves the difficulty by the saturating
unit ratchet. -/
theorem C2_submit_scoring_and_ratchet (s : QuizState) (fb : String)
    (s' : QuizState) (_hphase : s.phase = "process_answer")
    (h : process_answer_node s (some fb) = some s') :
    s'.score = s.score +
      (if pyUpper (pyStrip s.user_answer) = pyUpper (pyStrip s.correct_answer)
       then 1 else 0) ∧
    s'.total_questions = s.total_questions + 1 ∧
    s'.difficulty =
      (if pyUpper (pyStrip s.user_answer) = pyUpper (pyStrip s.correct_answer)
          ∧ s.difficulty < 5 then
        s.difficulty + 1
      else if pyUpper (pyStrip s.user_answer) ≠ pyUpper (pyStrip s.correct_answer)
          ∧ s.difficulty > 1 then
        s.difficulty - 1
      else s.difficulty) := by
  rw [process_answer_node_eq, Option.some.injEq] at h
  subst h
  refine ⟨?_, rfl, ?_⟩
  · by_cases hc : pyUpper (pyStrip s.user_answer) =
        pyUpper (pyStrip s.correct_answer)
    · simp [hc]
    · simp [hc]
  · by_cases hc : pyUpper (pyStrip s.user_answer) =
        pyUpper (pyStrip s.correct_answer) <;>
      simp [hc] <;> split_ifs <;> omega

theorem C2_submit_scoring_and_ratchet_witness :
    c2state.phase = "process_answer" ∧
    process_answer_node c2state (some "fb") = some c2res ∧
    (c2res.score = c2state.score +
      (if pyUpper (pyStrip c2state.user_answer) =
          pyUpper (pyStrip c2state.correct_answer)
       then 1 else 0) ∧
    c2res.total_questions = c2state.total_questions + 1 ∧
    c2res.difficulty =
      (if pyUpper (pyStrip c2state.user_answer) =
          pyUpper (pyStrip c2state.correct_answer)
          ∧ c2state.difficulty < 5 then
        c2state.difficulty + 1
      else if pyUpper (pyStrip c2state.user_answer) ≠
          pyUpper (pyStrip c2state.correct_answer)
          ∧ c2state.difficulty > 1 then
        c2state.difficulty - 1
      else c2state.difficulty)) :=
  ⟨rfl, rfl, C2_submit_scoring_and_ratchet c2state "fb" c2res rfl rfl⟩

/-- C3: a GenerateQuestion attempt (StartOrResume resuming an existing
record) while the record's phase is AwaitingAnswer always fails with
the invalid-phase client error and leaves the store unchanged; a
SubmitAnswer while the phase is AwaitingQuestion always fails with the
invalid-phase client error; and each transition can only succeed from
its designated phase. -/
theorem C3_phase_guards (db : DB) (req : QuizStartRequest)
    (fid now : String) (llm : Option RawMCQ)
    (sreq : AnswerSubmitRequest) (fb : Option String) (sid : String)
    (r1 r2 : QuizSessionRec)
    (h1 : req.session_id = some sid)
    (h2 : get_quiz_session_by_student_and_session db req.user_id sid =
      some r1)
    (h3 : r1.phase = "process_answer")
    (h4 : get_quiz_session_by_student_and_session db (some sreq.user_id)
      sreq.session_id = some r2)
    (h5 : r2.phase = "generate_mcq") :
    start_quiz db req fid now llm =
      (db, .error (.badRequest "Already an active question in queue")) ∧
    submit_answer db sreq fb =
      (db, .error (.badRequest "No active question to answer")) ∧
    (∀ (db2 : DB) (req2 : QuizStartRequest) (f2 n2 : String)
        (l2 : Option RawMCQ) (sid2 : String) (r3 : QuizSessionRec)
        (db' : DB) (resp : QuizStartResponse),
      req2.session_id = some sid2 →
      get_quiz_session_by_student_and_session db2 req2.user_id sid2 =
        some r3 →
      start_quiz db2 req2 f2 n2 l2 = (db', Except.ok resp) →
      r3.phase = "generate_mcq") ∧
    (∀ (db2 : DB) (req2 : AnswerSubmitRequest) (fb2 : Option String)
        (r3 : QuizSessionRec) (db' : DB) (resp : AnswerSubmitResponse),
      get_quiz_session_by_student_and_session db2 (some req2.user_id)
        req2.session_id = some r3 →
      submit_answer db2 req2 fb2 = (db', Except.ok resp) →
      r3.phase = "process_answer") := by
  refine ⟨?_, ?_, ?_, ?_⟩
  · rw [start_quiz_resume_eq db req fid now llm sid r1 h1 h2]
    rw [if_pos]
    show (quiz_session_to_state r1).phase ≠ "generate_mcq"
    simp [quiz_session_to_state, h3]
  · rw [submit_answer_eq db sreq fb r2 h4]
    rw [if_pos]
    show (quiz_session_to_state r2).phase ≠ "process_answer"
    simp [quiz_session_to_state, h5]
  · intro db2 req2 f2 n2 l2 sid2 r3 db' resp hsid hfind hrun
    rw [start_quiz_resume_eq db2 req2 f2 n2 l2 sid2 r3 hsid hfind] at hrun
    by_cases hp : (quiz_session_to_state r3).phase ≠ "generate_mcq"
    · rw [if_pos hp] at hrun
      rw [Prod.mk.injEq] at hrun
      exact absurd hrun.2 (by simp)
    · exact not_ne_iff.mp hp
  · intro db2 req2 fb2 r3 db' resp hfind hrun
    rw [submit_answer_eq db2 req2 fb2 r3 hfind] at hrun
    by_cases hp : (quiz_session_to_state r3).phase ≠ "process_answer"
    · rw [if_pos hp] at hrun
      rw [Prod.mk.injEq] at hrun
      exact absurd hrun.2 (by simp)
    · exact not_ne_iff.mp hp

theorem C3_phase_guards_witness :
    c3startReq.session_id = some "sA" ∧
    get_quiz_session_by_student_and_session c3db c3startReq.user_id "sA" =
      some c3recA ∧
    c3recA.phase = "process_answer" ∧
    get_quiz_session_by_student_and_session c3db (some c3subReq.user_id)
      c3subReq.session_id = some c3recB ∧
    c3recB.phase = "generate_mcq" ∧
    start_quiz c3db c3startReq "f" "t1" none =
      (c3db, .error (.badRequest "Already an active question in queue")) ∧
    submit_answer c3db c3subReq none =
      (c3db, .error (.badRequest "No active question to answer")) :=
  ⟨rfl, rfl, rfl, rfl, rfl,
   (C3_phase_guards c3db c3startReq "f" "t1" none c3subReq none "sA"
     c3recA c3recB rfl rfl rfl rfl rfl).1,
   (C3_phase_guards c3db c3startReq "f" "t1" none c3subReq none "sA"
     c3recA c3recB rfl rfl rfl rfl rfl).2.1⟩

/-- C4 counterexample: a SubmitAnswer on a live session in phase
AwaitingAnswer with the correct label whose feedback call fails leaves
the stored record completely unchanged — the score, total_questions
and difficulty updates do NOT persist (total_questions stays 0 instead
of the claimed 1), because the state assignments in
`process_answer_node` come after the feedback call. -/
theorem C4_counterexample :
    submit_answer c4db c4req none =
      (c4db, .error (.serverError "Failed to process answer")) ∧
    (∀ r ∈ (submit_answer c4db c4req none).1.quizSessions,
      r.score = 0 ∧ r.total_questions = 0 ∧ r.difficulty = 3 ∧
        r.phase = "process_answer") := by
  refine ⟨rfl, ?_⟩
  intro r hr
  rcases List.mem_singleton.mp hr with rfl
  exact ⟨rfl, rfl, rfl, rfl⟩

/-- C4 amended: when the Feedback Source call fails during
SubmitAnswer, the failure surfaces as a server error and the database
is left completely unchanged — the score, total_questions and
difficulty updates are rolled back together with everything else,
because the in-memory assignments occur only after the feedback call
returns. -/
theorem C4_feedback_failure_full_rollback (db : DB)
    (req : AnswerSubmitRequest) :
    (submit_answer db req none).1 = db ∧
    ∀ resp, (submit_answer db req none).2 ≠ Except.ok resp := by
  cases hf : get_quiz_session_by_student_and_session db (some req.user_id)
      req.session_id with
  | none =>
    have he : submit_answer db req none =
        (db, .error (.notFound "Quiz session not found or expired")) := by
      unfold submit_answer
      rw [hf]
    rw [he]
    exact ⟨rfl, by simp⟩
  | some dbs =>
    rw [submit_answer_eq db req none dbs hf]
    by_cases hp : (quiz_session_to_state dbs).phase ≠ "process_answer"
    · rw [if_pos hp]
      exact ⟨rfl, by simp⟩
    · rw [if_neg hp, process_answer_node_none]
      exact ⟨rfl, by simp⟩

/-- C5: whenever the question source's outcome admits no valid MCQ —
no recoverable structured payload, a required field missing, a
correct-label outside {A,B,C,D}, or a difficulty echo outside [1,5] —
every StartOrResume path fails (no `ok` response), the store is left
completely unchanged, and in the resume path with a record in phase
AwaitingQuestion the failure is the generation server error. -/
theorem C5_parse_failure_no_mutation (db : DB) (req : QuizStartRequest)
    (fid now : String) (llm : Option RawMCQ)
    (hfail : generationFails llm) :
    (start_quiz db req fid now llm).1 = db ∧
    (∀ resp, (start_quiz db req fid now llm).2 ≠ Except.ok resp) ∧
    (∀ sid dbs, req.session_id = some sid →
      get_quiz_session_by_student_and_session db req.user_id sid =
        some dbs →
      dbs.phase = "generate_mcq" →
      start_quiz db req fid now llm =
        (db, .error (.serverError "Failed to start quiz session"))) := by
  have hg : ∀ s, generate_mcq_node s llm = none := by
    intro s
    cases llm with
    | none => rfl
    | some raw =>
      have hv : MCQ.validate raw = none := hfail
      simp [generate_mcq_node, hv]
  have hcreate : start_quiz_create db req fid now llm =
      (db, .error (.serverError "Failed to start quiz session")) := by
    simp only [start_quiz_create, hg]
  rcases hso : req.session_id with _ | sid
  · rw [start_quiz_fresh_eq db req fid now llm (by simp [hso]), hcreate]
    exact ⟨rfl, by simp, fun _ _ _ _ _ => rfl⟩
  · cases hf : get_quiz_session_by_student_and_session db req.user_id
        sid with
    | none =>
      rw [start_quiz_fresh_eq db req fid now llm ?_, hcreate]
      · exact ⟨rfl, by simp, fun _ _ _ _ _ => rfl⟩
      · intro sid' hs'
        rw [hso, Option.some.injEq] at hs'
        subst hs'
        exact hf
    | some dbs =>
      rw [start_quiz_resume_eq db req fid now llm sid dbs hso hf]
      by_cases hp : (quiz_session_to_state dbs).phase ≠ "generate_mcq"
      · rw [if_pos hp]
        refine ⟨rfl, by simp, ?_⟩
        intro sid' dbs' h' h'' hph
        rw [Option.some.injEq] at h'
        subst h'
        rw [hf, Option.some.injEq] at h''
        subst h''
        exact absurd hph (by simpa [quiz_session_to_state] using hp)
      · rw [if_neg hp, hg]
        exact ⟨rfl, by simp, fun _ _ _ _ _ => rfl⟩

theorem C5_parse_failure_no_mutation_witness :
    generationFails (some c5raw) ∧
    c5req.session_id = some "s5" ∧
    get_quiz_session_by_student_and_session c5db c5req.user_id "s5" =
      some c5rec ∧
    c5rec.phase = "generate_mcq" ∧
    ((start_quiz c5db c5req "f" "t5" (some c5raw)).1 = c5db ∧
     (∀ resp, (start_quiz c5db c5req "f" "t5" (some c5raw)).2 ≠
       Except.ok resp) ∧
     (∀ sid dbs, c5req.session_id = some sid →
       get_quiz_session_by_student_and_session c5db c5req.user_id sid =
         some dbs →
       dbs.phase = "generate_mcq" →
       start_quiz c5db c5req "f" "t5" (some c5raw) =
         (c5db, .error (.serverError "Failed to start quiz session")))) :=
  ⟨rfl, rfl, rfl, rfl,
   C5_parse_failure_no_mutation c5db c5req "f" "t5" (some c5raw) rfl⟩

/-- C6 evidence (code bug): the request model's `Literal` check
rejects the lowercase label `"b"` even though the very same field
declares the pattern `^[A-Da-d]$` admitting it, so a lowercase
submission is bounced by request validation and never reaches the
state machine — while the state machine itself normalizes
case-insensitively and would score `"b"` against `"B"` as correct. -/
theorem C6_lowercase_literal_rejection :
    AnswerSubmitRequest.validAnswer c6req = false ∧
    answerLiteralOk "b" = false ∧
    answerPatternOk "b" = true ∧
    (∀ (db : DB) (fb : Option String),
      submit_answer_validated db c6req fb =
        (db, .error (.unprocessable "request validation failed"))) ∧
    (∃ s', process_answer_node c6state (some "fb") = some s' ∧
      s'.score = c6state.score + 1) := by
  refine ⟨rfl, rfl, rfl, ?_, ?_⟩
  · intro db fb
    unfold submit_answer_validated
    rw [if_neg]
    intro hv
    exact absurd hv (by decide)
  · exact ⟨_, rfl, rfl⟩

/-- C7: ending an existing live session (with the store's primary-key
uniqueness and no archived quiz already holding this session id)
appends exactly one CompletedQuiz record carrying the session's final
counters, deletes the live record, and makes any further End or
GetStatus on the same (student_id, session_id) key fail with the
not-found error. -/
theorem C7_end_archives_and_deletes (db : DB) (uid sid : String)
    (r : QuizSessionRec)
    (hpw : db.quizSessions.Pairwise fun a b =>
      a.session_id ≠ b.session_id)
    (hfind : get_quiz_session_by_student_and_session db (some uid) sid =
      some r)
    (hq : ∀ q ∈ db.quizzes, q.session_id ≠ sid) :
    (end_quiz db uid sid).1.quizzes =
      db.quizzes ++
        [⟨sid, uid, r.course, r.topic, r.difficulty, r.score,
          r.total_questions⟩] ∧
    (∃ s, (end_quiz db uid sid).2 = Except.ok s) ∧
    get_quiz_session_by_student_and_session (end_quiz db uid sid).1
      (some uid) sid = none ∧
    end_quiz (end_quiz db uid sid).1 uid sid =
      ((end_quiz db uid sid).1, .error (.notFound "Quiz session not found")) ∧
    get_quiz_status (end_quiz db uid sid).1 uid sid =
      .error (.notFound "Quiz session not found or expired") := by
  have hnoarch : (db.quizzes.any fun q => q.session_id == sid) = false := by
    rw [List.any_eq_false]
    intro q hqm
    simp only [beq_iff_eq]
    exact hq q hqm
  have hc : create_quiz db
      ⟨sid, uid, r.course, r.topic, r.difficulty, r.score,
        r.total_questions⟩ =
      some { db with quizzes := db.quizzes ++
        [⟨sid, uid, r.course, r.topic, r.difficulty, r.score,
          r.total_questions⟩] } := by
    simp [create_quiz, hnoarch]
  rw [end_quiz_eq db uid sid r hfind, hc]
  have hrmem : r ∈ db.quizSessions := List.mem_of_find?_eq_some hfind
  have hpred := List.find?_some hfind
  simp only [Bool.and_eq_true, beq_iff_eq] at hpred
  have hkey := eraseFirst_no_key hpw hrmem hpred.2
  have hnone : (get_quiz_session_by_student_and_session
      (delete_quiz_session
        { db with quizzes := db.quizzes ++
          [⟨sid, uid, r.course, r.topic, r.difficulty, r.score,
            r.total_questions⟩] } sid) (some uid) sid) = none := by
    unfold get_quiz_session_by_student_and_session delete_quiz_session
    rw [List.find?_eq_none]
    intro x hx
    simp only [Bool.and_eq_true, beq_iff_eq, not_and]
    intro _
    exact hkey x hx
  refine ⟨rfl, ⟨_, rfl⟩, hnone, ?_, ?_⟩
  · unfold end_quiz
    rw [hnone]
  · unfold get_quiz_status
    rw [hnone]

theorem C7_end_archives_and_deletes_witness :
    (c7db.quizSessions.Pairwise fun a b =>
      a.session_id ≠ b.session_id) ∧
    get_quiz_session_by_student_and_session c7db (some "u7") "s7" =
      some c7rec ∧
    (∀ q ∈ c7db.quizzes, q.session_id ≠ "s7") ∧
    ((end_quiz c7db "u7" "s7").1.quizzes =
      c7db.quizzes ++
        [⟨"s7", "u7", c7rec.course, c7rec.topic, c7rec.difficulty,
          c7rec.score, c7rec.total_questions⟩] ∧
     (∃ s, (end_quiz c7db "u7" "s7").2 = Except.ok s) ∧
     get_quiz_session_by_student_and_session (end_quiz c7db "u7" "s7").1
       (some "u7") "s7" = none ∧
     end_quiz (end_quiz c7db "u7" "s7").1 "u7" "s7" =
       ((end_quiz c7db "u7" "s7").1,
        .error (.notFound "Quiz session not found")) ∧
     get_quiz_status (end_quiz c7db "u7" "s7").1 "u7" "s7" =
       .error (.notFound "Quiz session not found or expired")) :=
  ⟨List.pairwise_singleton _ _, rfl, by simp [c7db],
   C7_end_archives_and_deletes c7db "u7" "s7" c7rec
     (List.pairwise_singleton _ _) rfl (by simp [c7db])⟩

/-- C8 counterexample: starting against an empty store while supplying
the unmatched session id `"s1"` creates the new record under the
freshly drawn uuid `"f1"`, not under `"s1"` — the supplied-but-
unmatched session id is discarded, contradicting the claim that it is
used as the identity of the new record. -/
theorem C8_counterexample :
    c8req.session_id = some "s1" ∧
    ((start_quiz ⟨[], []⟩ c8req "f1" "t0" (some wRaw)).1.quizSessions.map
      fun r => r.session_id) = ["f1"] ∧
    (∀ r ∈ (start_quiz ⟨[], []⟩ c8req "f1" "t0"
        (some wRaw)).1.quizSessions, r.session_id ≠ "s1") := by
  refine ⟨rfl, rfl, ?_⟩
  intro r hr
  rcases List.mem_singleton.mp hr with rfl
  decide

/-- C8 amended: when the supplied session_id matches no record (or none
is supplied), StartOrResume creates a fresh in-memory state with phase
AwaitingQuestion, runs GenerateQuestion, and persists the result as a
new record — but the record's identity is the freshly generated uuid in
BOTH cases; a supplied-but-unmatched session_id is discarded, not
reused. -/
theorem C8_fresh_id_always (db : DB) (req : QuizStartRequest)
    (fid now : String) (llm : Option RawMCQ) (result : QuizState)
    (uid : String)
    (hmiss : ∀ sid, req.session_id = some sid →
      get_quiz_session_by_student_and_session db req.user_id sid = none)
    (huid : req.user_id = some uid)
    (hgen : generate_mcq_node (newQuizState req now) llm = some result)
    (hfresh : (db.quizSessions.any fun r => r.session_id == fid) = false) :
    start_quiz db req fid now llm =
      ({ db with quizSessions :=
          db.quizSessions ++ [stateToRec fid uid result] },
       .ok (quizStartResponseOf fid result)) ∧
    (stateToRec fid uid result).session_id = fid ∧
    result.score = 0 ∧ result.total_questions = 0 ∧
    result.phase = "process_answer" := by
  rcases generate_mcq_node_some hgen with ⟨hsc, ht, -, -, -, hp⟩
  simp only [newQuizState] at hsc ht
  refine ⟨?_, rfl, hsc, ht, hp⟩
  rw [start_quiz_fresh_eq db req fid now llm hmiss]
  simp only [start_quiz_create, hgen, huid]
  have hfre : (db.quizSessions.any fun r =>
      r.session_id == (stateToRec fid uid result).session_id) = false :=
    hfresh
  have hc : create_quiz_session db (stateToRec fid uid result) =
      some { db with quizSessions :=
        db.quizSessions ++ [stateToRec fid uid result] } := by
    simp [create_quiz_session, hfre]
  rw [hc]

theorem C8_fresh_id_always_witness :
    c8req.session_id = some "s1" ∧
    get_quiz_session_by_student_and_session (⟨[], []⟩ : DB)
      c8req.user_id "s1" = none ∧
    generate_mcq_node (newQuizState c8req "t0") (some wRaw) =
      some c8result ∧
    (start_quiz ⟨[], []⟩ c8req "f1" "t0" (some wRaw) =
      ({ (⟨[], []⟩ : DB) with quizSessions :=
          ([] : List QuizSessionRec) ++ [stateToRec "f1" "u1" c8result] },
       .ok (quizStartResponseOf "f1" c8result)) ∧
     (stateToRec "f1" "u1" c8result).session_id = "f1" ∧
     c8result.score = 0 ∧ c8result.total_questions = 0 ∧
     c8result.phase = "process_answer") :=
  ⟨rfl, rfl, rfl,
   C8_fresh_id_always ⟨[], []⟩ c8req "f1" "t0" (some wRaw) c8result "u1"
     (fun _ _ => rfl) rfl rfl rfl⟩

/-- C9: ending an existing live session succeeds (given the archive
table does not already hold this session id) and the returned summary
carries the session's score and total_questions, with accuracy equal to
score/total_questions as a percentage rounded to 2 decimal places when
total_questions > 0, and accuracy 0 when total_questions = 0; the
division is guarded so it is never executed with a zero denominator. -/
theorem C9_end_accuracy (db : DB) (uid sid : String) (r : QuizSessionRec)
    (hfind : get_quiz_session_by_student_and_session db (some uid) sid =
      some r)
    (hnoarch : (db.quizzes.any fun q => q.session_id == sid) = false) :
    ∃ db' s, end_quiz db uid sid = (db', Except.ok s) ∧
      s.score = r.score ∧ s.total_questions = r.total_questions ∧
      (r.total_questions > 0 →
        s.accuracy =
          pyRound2 ((r.score : ℚ) / (r.total_questions : ℚ) * 100)) ∧
      (r.total_questions = 0 → s.accuracy = 0) := by
  have hc : create_quiz db
      ⟨sid, uid, r.course, r.topic, r.difficulty, r.score,
        r.total_questions⟩ =
      some { db with quizzes := db.quizzes ++
        [⟨sid, uid, r.course, r.topic, r.difficulty, r.score,
          r.total_questions⟩] } := by
    simp [create_quiz, hnoarch]
  rw [end_quiz_eq db uid sid r hfind, hc]
  refine ⟨_, _, rfl, rfl, rfl, ?_, ?_⟩
  · intro hpos
    simp only [if_pos hpos]
  · intro hz
    rw [if_neg]
    omega

theorem C9_end_accuracy_witness :
    get_quiz_session_by_student_and_session c9db (some "u9") "s9" =
      some c9rec ∧
    get_quiz_session_by_student_and_session c9zdb (some "uz") "sz" =
      some c9zrec ∧
    pyRound2 ((3 : ℚ) / 5 * 100) = 60 ∧
    (∃ db' s, end_quiz c9db "u9" "s9" = (db', Except.ok s) ∧
      s.score = c9rec.score ∧ s.total_questions = c9rec.total_questions ∧
      (c9rec.total_questions > 0 →
        s.accuracy =
          pyRound2 ((c9rec.score : ℚ) / (c9rec.total_questions : ℚ) * 100)) ∧
      (c9rec.total_questions = 0 → s.accuracy = 0)) ∧
    (∃ db' s, end_quiz c9zdb "uz" "sz" = (db', Except.ok s) ∧
      s.score = c9zrec.score ∧ s.total_questions = c9zrec.total_questions ∧
      (c9zrec.total_questions > 0 →
        s.accuracy =
          pyRound2 ((c9zrec.score : ℚ) / (c9zrec.total_questions : ℚ) * 100)) ∧
      (c9zrec.total_questions = 0 → s.accuracy = 0)) :=
  ⟨rfl, rfl, by norm_num [pyRound2, roundHalfEven],
   C9_end_accuracy c9db "u9" "s9" c9rec rfl rfl,
   C9_end_accuracy c9zdb "uz" "sz" c9zrec rfl rfl⟩

/-- C10: for every SubmitAnswer request that passes validation and
completes successfully on a reachable store, the `is_correct` flag the
endpoint recomputes (upper-casing the submitted and stored labels)
is true exactly when the transition set the returned (and persisted)
score to the stored score plus one — the endpoint's recomputation
agrees with the state machine's scoring decision. -/
theorem C10_endpoint_agreement (db : DB) (req : AnswerSubmitRequest)
    (fb : Option String) (db' : DB) (resp : AnswerSubmitResponse)
    (r : QuizSessionRec) (hreach : Reachable db)
    (hval : req.validAnswer = true)
    (hfind : get_quiz_session_by_student_and_session db
      (some req.user_id) req.session_id = some r)
    (hrun : submit_answer db req fb = (db', Except.ok resp)) :
    resp.is_correct = true ↔ resp.score = r.score + 1 := by
  have hca := ((reachable_dbInvariant hreach).1 r
    (List.mem_of_find?_eq_some hfind)).2.2.2.2.1
  have hans : req.answer = "A" ∨ req.answer = "B" ∨ req.answer = "C" ∨
      req.answer = "D" := by
    have h1 : answerLiteralOk req.answer = true :=
      (Bool.and_eq_true _ _ |>.mp hval).1
    simp only [answerLiteralOk, Bool.or_eq_true, beq_iff_eq] at h1
    tauto
  rw [submit_answer_eq db req fb r hfind] at hrun
  by_cases hp : (quiz_session_to_state r).phase ≠ "process_answer"
  · rw [if_pos hp] at hrun
    rw [Prod.mk.injEq] at hrun
    exact absurd hrun.2 (by simp)
  · rw [if_neg hp] at hrun
    cases fb with
    | none =>
      rw [process_answer_node_none] at hrun
      simp only [Prod.mk.injEq] at hrun
      exact absurd hrun.2 (by simp)
    | some fbs =>
      rw [process_answer_node_eq] at hrun
      simp only [Prod.mk.injEq, Except.ok.injEq] at hrun
      obtain ⟨-, hresp⟩ := hrun
      subst hresp
      have e1 : (pyUpper req.answer == pyUpper r.correct_answer) =
          (req.answer == r.correct_answer) := by
        rcases hans with h | h | h | h <;>
          rcases hca with h' | h' | h' | h' <;> rw [h, h'] <;> decide
      have e2 : (pyUpper (pyStrip req.answer) ==
            pyUpper (pyStrip r.correct_answer)) =
          (req.answer == r.correct_answer) := by
        rcases hans with h | h | h | h <;>
          rcases hca with h' | h' | h' | h' <;> rw [h, h'] <;> decide
      simp only [quiz_session_to_state]
      simp only [e1, e2]
      by_cases he : (req.answer == r.correct_answer) = true
      · simp [he]
      · simp [he]

theorem C10_endpoint_agreement_witness :
    wSubReq.validAnswer = true ∧
    get_quiz_session_by_student_and_session wDB1 (some "u1") "s1" =
      some wRec ∧
    submit_answer wDB1 wSubReq (some "nice") =
      ((submit_answer wDB1 wSubReq (some "nice")).1, Except.ok wResp) ∧
    (wResp.is_correct = true ↔ wResp.score = wRec.score + 1) :=
  ⟨rfl, rfl, rfl,
   C10_endpoint_agreement wDB1 wSubReq (some "nice")
     (submit_answer wDB1 wSubReq (some "nice")).1 wResp wRec
     wDB1_reachable rfl rfl rfl⟩
